import Mathlib

/-!
Shallow embedding of the per-frame simulation engine of
src/components/GameCanvas.tsx (the pencil endless-runner game).

Conventions used throughout:

* JS numbers are modelled as rationals.  Every constant appearing in the
  embedded code (0.5, 0.6, 120, 392, 2000, ...) is exact in binary
  floating point or the surrounding logic is robust to rounding, with one
  exception noted at createProjectile: Lean's total division on the
  rationals returns 0 on a zero denominator where JS returns NaN.
* Math.random draws, Date.now() and the transcendental library calls
  (Math.sin, Math.cos, Math.sqrt) are per-tick inputs, collected in Env.
  The game logic never inspects their values except as opaque numbers, so
  an arbitrary rational (or, for Math.sqrt, an arbitrary function) is a
  faithful model; concrete instances below always pick values the real
  functions can produce at the evaluated points.
* The particles array and all canvas drawing are omitted: particles are
  written by the game logic but never read back by any update, collision
  or scoring code, and drawing has no effect on state.
* React setState(prev => ...) updates are modelled as direct field
  updates.  Inside one tick the code reads and writes its state
  synchronously through a ref, which the sequential lets reproduce.  The
  requestAnimationFrame effect only keeps the loop running while
  gameState is 'playing'; `step` models that outer guard.
-/

namespace PencilGame

/-- The `gameState` React value (menu / playing / paused / levelComplete /
gameOver / victory). -/
inductive Phase
  | menu
  | playing
  | paused
  | levelComplete
  | gameOver
  | victory
deriving DecidableEq, Repr

/-- The runner (`state.pencil`): position, size, vertical velocity,
grounded flag and the invulnerability tick counter. -/
structure Pencil where
  x : ℚ
  y : ℚ
  width : ℚ
  height : ℚ
  velocityY : ℚ
  onGround : Bool
  invulnerable : ℕ
deriving DecidableEq, Repr

/-- A static obstacle (colors are render-only and omitted). -/
structure Obstacle where
  x : ℚ
  y : ℚ
  width : ℚ
  height : ℚ
  type : String
deriving DecidableEq, Repr

/-- A mobile enemy. -/
structure Enemy where
  x : ℚ
  y : ℚ
  width : ℚ
  height : ℚ
  type : String
  speed : ℚ
  direction : ℚ
deriving DecidableEq, Repr

/-- A boss (`type: 'boss'` in the source; the tag is constant so it is
dropped here).  `phase` mirrors the source field of the same name, which
is set to 1 and never updated. -/
structure Boss where
  x : ℚ
  y : ℚ
  width : ℚ
  height : ℚ
  health : ℚ
  maxHealth : ℚ
  pattern : String
  lastShot : ℚ
  phase : ℕ
deriving DecidableEq, Repr

/-- A boss projectile. -/
structure Projectile where
  x : ℚ
  y : ℚ
  width : ℚ
  height : ℚ
  speedX : ℚ
  speedY : ℚ
  type : String
deriving DecidableEq, Repr

/-- One row of the `levels` table.  Boss rows have no obstacleFreq or
enemyFreq in the source (the fields are absent, hence undefined); they are
only ever read on normal rows, so 0 stands in for undefined.  Likewise
`boss` is only read on boss rows and is "" on normal rows. -/
structure Level where
  name : String
  type : String
  difficulty : ℚ
  background : String
  obstacleFreq : ℚ
  enemyFreq : ℚ
  boss : String
deriving DecidableEq, Repr

/-- The 20-entry level table. -/
def levels : List Level :=
  [ { name := "Desk Escape", type := "normal", difficulty := 1, background := "#8B4513", obstacleFreq := 120, enemyFreq := 200, boss := "" },
    { name := "Notebook Valley", type := "normal", difficulty := 1.2, background := "#696969", obstacleFreq := 100, enemyFreq := 180, boss := "" },
    { name := "Pencil Case Chaos", type := "normal", difficulty := 1.4, background := "#2F4F4F", obstacleFreq := 80, enemyFreq := 160, boss := "" },
    { name := "Ruler Rapids", type := "normal", difficulty := 1.6, background := "#4682B4", obstacleFreq := 70, enemyFreq := 140, boss := "" },
    { name := "Teacher's Wrath", type := "boss", difficulty := 2, background := "#1a1a1a", obstacleFreq := 0, enemyFreq := 0, boss := "teacher" },
    { name := "Eraser Wasteland", type := "normal", difficulty := 1.8, background := "#CD853F", obstacleFreq := 60, enemyFreq := 120, boss := "" },
    { name := "Stapler Storm", type := "normal", difficulty := 2, background := "#483D8B", obstacleFreq := 55, enemyFreq := 110, boss := "" },
    { name := "Sharpener Maze", type := "normal", difficulty := 2.2, background := "#8B0000", obstacleFreq := 50, enemyFreq := 100, boss := "" },
    { name := "Calculator Canyon", type := "normal", difficulty := 2.4, background := "#556B2F", obstacleFreq := 45, enemyFreq := 90, boss := "" },
    { name := "Principal's Office", type := "boss", difficulty := 2.5, background := "#0f0f0f", obstacleFreq := 0, enemyFreq := 0, boss := "principal" },
    { name := "Glue Trap Valley", type := "normal", difficulty := 2.6, background := "#9932CC", obstacleFreq := 40, enemyFreq := 80, boss := "" },
    { name := "Marker Madness", type := "normal", difficulty := 2.8, background := "#B22222", obstacleFreq := 38, enemyFreq := 75, boss := "" },
    { name := "Compass Chaos", type := "normal", difficulty := 3, background := "#191970", obstacleFreq := 35, enemyFreq := 70, boss := "" },
    { name := "Protractor Peril", type := "normal", difficulty := 3.2, background := "#8B008B", obstacleFreq := 32, enemyFreq := 65, boss := "" },
    { name := "Janitor's Revenge", type := "boss", difficulty := 3.5, background := "#0a0a0a", obstacleFreq := 0, enemyFreq := 0, boss := "janitor" },
    { name := "Highlighter Hell", type := "normal", difficulty := 3.6, background := "#FF4500", obstacleFreq := 30, enemyFreq := 60, boss := "" },
    { name := "Binder Blitz", type := "normal", difficulty := 3.8, background := "#4B0082", obstacleFreq := 28, enemyFreq := 55, boss := "" },
    { name := "Folder Frenzy", type := "normal", difficulty := 4, background := "#800000", obstacleFreq := 25, enemyFreq := 50, boss := "" },
    { name := "Backpack Battlefield", type := "normal", difficulty := 4.2, background := "#2F2F2F", obstacleFreq := 22, enemyFreq := 45, boss := "" },
    { name := "Superintendent's Fury", type := "boss", difficulty := 5, background := "#000000", obstacleFreq := 0, enemyFreq := 0, boss := "superintendent" } ]

/-- Fallback row: indexing past the table would throw in JS (the code
reads `levels[level - 1]` and immediately dereferences it); the game never
does so because `nextLevel` switches to victory at the last level. -/
def fallbackLevel : Level :=
  { name := "", type := "normal", difficulty := 1, background := "",
    obstacleFreq := 0, enemyFreq := 0, boss := "" }

/-- `levels[level - 1]` for the 1-based React `level` value. -/
def getLevel (n : ℕ) : Level :=
  levels.getD (n - 1) fallbackLevel

/-- The root mutable state: React states (`gameState`, `score`, `lives`,
`level`, `bossDefeated`) plus the `gameStateRef` bag.  `camera` is
`camera.x` (the only camera field). -/
structure GameState where
  phase : Phase
  score : ℕ
  lives : ℤ
  level : ℕ
  bossDefeated : ℕ
  pencil : Pencil
  camera : ℚ
  worldSpeed : ℚ
  obstacles : List Obstacle
  enemies : List Enemy
  bosses : List Boss
  projectiles : List Projectile
  levelProgress : ℚ
  nextObstacle : ℚ
  nextEnemy : ℚ
  bossActive : Bool
  bossSpawned : Bool
  levelDistance : ℚ
  backgroundOffset : ℚ
deriving DecidableEq, Repr

/-- Per-tick external inputs: the jump key, the wall clock, the random
draws for spawn types, and the values of the library math calls made this
tick (sqrtFn models Math.sqrt; the sin and cos fields model the listed
Math.sin and Math.cos calls on the current Date.now).  Viewport width is
the fixed canvas width 800. -/
structure Env where
  up : Bool
  now : ℚ
  obstacleChoice : ℕ
  enemyChoice : ℕ
  sqrtFn : ℚ → ℚ
  sinBounce : ℚ
  sin003 : ℚ
  cos004 : ℚ
  sin002 : ℚ

/-- An axis-aligned rectangle, the duck-typed shape `checkCollision`
reads. -/
structure Rect where
  x : ℚ
  y : ℚ
  width : ℚ
  height : ℚ
deriving DecidableEq, Repr

/-- `checkCollision`: strict-overlap test of two rectangles. -/
abbrev checkCollision (r1 r2 : Rect) : Prop :=
  r1.x < r2.x + r2.width ∧ r1.x + r1.width > r2.x ∧
  r1.y < r2.y + r2.height ∧ r1.y + r1.height > r2.y

def Pencil.rect (p : Pencil) : Rect := ⟨p.x, p.y, p.width, p.height⟩

def Obstacle.rect (o : Obstacle) : Rect := ⟨o.x, o.y, o.width, o.height⟩

def Enemy.rect (e : Enemy) : Rect := ⟨e.x, e.y, e.width, e.height⟩

def Boss.rect (b : Boss) : Rect := ⟨b.x, b.y, b.width, b.height⟩

def Projectile.rect (p : Projectile) : Rect := ⟨p.x, p.y, p.width, p.height⟩

/-- The fixed obstacle-type set of `createObstacle`. -/
def obstacleTypes : List String :=
  ["scissors", "stapler", "eraser", "ruler", "sharpener", "glue", "calculator"]

/-- Width and height per obstacle type (colors omitted, render-only). -/
def obstacleSize (t : String) : ℚ × ℚ :=
  if t = "scissors" then (30, 25)
  else if t = "stapler" then (35, 20)
  else if t = "eraser" then (25, 15)
  else if t = "ruler" then (40, 8)
  else if t = "sharpener" then (20, 20)
  else if t = "glue" then (15, 30)
  else (45, 35)

/-- `createObstacle`: the Math.floor(Math.random() * 7) draw is the
`choice` input, reduced mod the table length exactly as the JS index is
always in range. -/
def createObstacle (choice : ℕ) (x : ℚ) : Obstacle :=
  let t := obstacleTypes.getD (choice % obstacleTypes.length) "scissors"
  let d := obstacleSize t
  { x := x, y := 400 - d.2, width := d.1, height := d.2, type := t }

def enemyTypes : List String := ["paperball", "flyingEraser", "bouncingRuler"]

/-- Width, height, base speed and spawn y per enemy type. -/
def enemyData (t : String) : ℚ × ℚ × ℚ × ℚ :=
  if t = "paperball" then (15, 15, 2, 350)
  else if t = "flyingEraser" then (20, 12, 1.5, 250)
  else (30, 6, 1, 300)

/-- `createEnemy`, with the random type draw as `choice` and the React
`level` value scaling the speed. -/
def createEnemy (choice : ℕ) (x : ℚ) (level : ℕ) : Enemy :=
  let t := enemyTypes.getD (choice % enemyTypes.length) "paperball"
  let d := enemyData t
  { x := x, y := d.2.2.2, width := d.1, height := d.2.1, type := t,
    speed := d.2.2.1 * (1 + (level : ℚ) * 0.1), direction := -1 }

/-- `createBoss`: the four boss kinds; `maxHealth` is a copy of the
initial health (source: `maxHealth: bossData.health`), `lastShot := 0`,
`phase := 1`.  An unknown kind would crash in JS; the function is only
called with table entries, all four of which are covered, and the final
branch doubles as the superintendent row. -/
def createBoss (t : String) : Boss :=
  if t = "teacher" then
    { x := 700, y := 200, width := 80, height := 100, health := 50,
      maxHealth := 50, pattern := "homework", lastShot := 0, phase := 1 }
  else if t = "principal" then
    { x := 700, y := 180, width := 90, height := 110, health := 75,
      maxHealth := 75, pattern := "detention", lastShot := 0, phase := 1 }
  else if t = "janitor" then
    { x := 700, y := 190, width := 85, height := 105, health := 100,
      maxHealth := 100, pattern := "mop", lastShot := 0, phase := 1 }
  else
    { x := 700, y := 160, width := 100, height := 120, health := 150,
      maxHealth := 150, pattern := "policy", lastShot := 0, phase := 1 }

/-- Projectile width and height per pattern; the last branch is the
source fallback `projectiles[type] || projectiles.homework`. -/
def projectileSize (t : String) : ℚ × ℚ :=
  if t = "homework" then (20, 15)
  else if t = "detention" then (25, 20)
  else if t = "mop" then (30, 8)
  else if t = "policy" then (35, 25)
  else (20, 15)

/-- The pattern-specific projectile speed constant. -/
def projectileSpeed (t : String) : ℚ :=
  if t = "homework" then 4 else if t = "detention" then 5
  else if t = "mop" then 3 else 6

/-- Math.sqrt(dx * dx + dy * dy) of `createProjectile`, with Math.sqrt
supplied by the environment. -/
def aimDistance (sqrtFn : ℚ → ℚ) (x y targetX targetY : ℚ) : ℚ :=
  sqrtFn ((targetX - x) * (targetX - x) + (targetY - y) * (targetY - y))

/-- `createProjectile`.  There is no guard on `distance`: the divisions
are performed unconditionally.  In JS a zero distance (coincident origin
and target) produces NaN velocities via 0/0; Lean's total rational
division returns 0 there instead — the divergence is confined to that
degenerate point and is the subject of claim C6. -/
def createProjectile (sqrtFn : ℚ → ℚ) (x y targetX targetY : ℚ)
    (t : String) : Projectile :=
  let dx := targetX - x
  let dy := targetY - y
  let distance := aimDistance sqrtFn x y targetX targetY
  let speed := projectileSpeed t
  let d := projectileSize t
  { x := x, y := y, width := d.1, height := d.2,
    speedX := dx / distance * speed, speedY := dy / distance * speed,
    type := t }

/-- `startGame`: resets every React state and every field of the mutable
ref bag; the result is one fixed constant, independent of the argument. -/
def startGame (_s : GameState) : GameState :=
  { phase := Phase.playing, score := 0, lives := 3, level := 1,
    bossDefeated := 0,
    pencil := { x := 100, y := 300, width := 40, height := 8,
                velocityY := 0, onGround := false, invulnerable := 0 },
    camera := 0, worldSpeed := 3, obstacles := [], enemies := [],
    bosses := [], projectiles := [], levelProgress := 0, nextObstacle := 0,
    nextEnemy := 0, bossActive := false, bossSpawned := false,
    levelDistance := 0, backgroundOffset := 0 }

/-- Pencil physics, gameLoop lines 369-389: jump impulse if the up key is
held while grounded, then gravity, integration, floor clamp at y = 392
and ceiling clamp at y = 0, in source order. -/
def pencilPhysics (up : Bool) (p : Pencil) : Pencil :=
  let p := if up && p.onGround then { p with velocityY := -12, onGround := false } else p
  let p := { p with velocityY := p.velocityY + 0.6 }
  let p := { p with y := p.y + p.velocityY }
  let p := if p.y ≥ 392 then { p with y := 392, velocityY := 0, onGround := true } else p
  if p.y < 0 then { p with y := 0, velocityY := 0 } else p

/-- Invulnerability update, gameLoop line 392: decrement when positive.
On naturals this is exactly truncated subtraction by one. -/
def invulnStep (p : Pencil) : Pencil :=
  if p.invulnerable > 0 then { p with invulnerable := p.invulnerable - 1 } else p

/-- Background scroll, camera advance, level distance and the pencil
update — everything in the tick before the spawn block (lines 351-392). -/
def preTick (env : Env) (s : GameState) : GameState :=
  let off := s.backgroundOffset - s.worldSpeed * 0.5
  { s with backgroundOffset := if off ≤ -100 then 0 else off,
           camera := s.camera + s.worldSpeed,
           levelDistance := s.levelDistance + s.worldSpeed,
           pencil := invulnStep (pencilPhysics env.up s.pencil) }

/-- Spawn block and normal-level completion check (lines 394-411).  The
Bool is true when the source hits the early `return` after setting the
level-complete state: the rest of the tick is skipped. -/
def spawnStep (env : Env) (s : GameState) : GameState × Bool :=
  let lvl := getLevel s.level
  if lvl.type = "normal" then
    let s :=
      if s.levelDistance > s.nextObstacle then
        { s with obstacles := s.obstacles ++ [createObstacle env.obstacleChoice (s.camera + 800)],
                 nextObstacle := s.levelDistance + lvl.obstacleFreq / lvl.difficulty }
      else s
    let s :=
      if s.levelDistance > s.nextEnemy then
        { s with enemies := s.enemies ++ [createEnemy env.enemyChoice (s.camera + 800) s.level],
                 nextEnemy := s.levelDistance + lvl.enemyFreq / lvl.difficulty }
      else s
    if s.levelDistance > 2000 then ({ s with phase := Phase.levelComplete }, true)
    else (s, false)
  else (s, false)

/-- Boss-level spawn (lines 414-418). -/
def bossSpawnStep (s : GameState) : GameState :=
  let lvl := getLevel s.level
  if lvl.type = "boss" ∧ s.bossSpawned = false then
    { s with bosses := s.bosses ++ [createBoss lvl.boss],
             bossActive := true, bossSpawned := true }
  else s

/-- The damage reaction repeated verbatim at the three hazard collision
sites (obstacles, lines 429-437; enemies, lines 458-466; projectiles,
lines 537-545): decrement lives, enter gameOver when the new value is
≤ 0, and arm the 120-tick invulnerability window. -/
def applyDamage (s : GameState) : GameState :=
  let newLives := s.lives - 1
  { s with lives := newLives,
           phase := if newLives ≤ 0 then Phase.gameOver else s.phase,
           pencil := { s.pencil with invulnerable := 120 } }

/-- One obstacle of the obstacle filter (lines 421-441): scroll left by
worldSpeed, drop when off screen, damage the pencil on overlap while not
invulnerable, keep the obstacle either way. -/
def obstacleStep (s : GameState) (ob : Obstacle) : GameState :=
  let ob := { ob with x := ob.x - s.worldSpeed }
  if ob.x + ob.width < s.camera - 100 then s
  else
    let s :=
      if checkCollision s.pencil.rect ob.rect ∧ s.pencil.invulnerable = 0 then
        applyDamage s
      else s
    { s with obstacles := s.obstacles ++ [ob] }

/-- One enemy of the enemy filter (lines 444-471): scroll, own movement,
bouncing-ruler bob, off-screen removal, and damage on overlap — the enemy
is consumed by the hit. -/
def enemyStep (env : Env) (s : GameState) (e : Enemy) : GameState :=
  let e := { e with x := e.x - s.worldSpeed + e.direction * e.speed }
  let e := if e.type = "bouncingRuler" then { e with y := e.y + env.sinBounce * 2 } else e
  if e.x + e.width < s.camera - 100 then s
  else if checkCollision s.pencil.rect e.rect ∧ s.pencil.invulnerable = 0 then
    applyDamage s
  else { s with enemies := s.enemies ++ [e] }

/-- Boss escape check and keep (lines 516-522): a boss scrolling past the
trailing camera edge fails the level. -/
def finishBoss (s : GameState) (b : Boss) : GameState :=
  if b.x + b.width < s.camera - 100 then { s with phase := Phase.gameOver }
  else { s with bosses := s.bosses ++ [b] }

/-- Movement patterns (lines 491-498), driven by the Date.now-based
library calls in the environment. -/
def bossPattern (env : Env) (b : Boss) : Boss :=
  if b.pattern = "homework" then { b with y := b.y + env.sin003 * 2 }
  else if b.pattern = "detention" then { b with y := b.y + env.cos004 * 3 }
  else if b.pattern = "mop" then { b with x := b.x + env.sin002 * 1 }
  else b

/-- The boss record as it stands at the stomp check: scrolled by half the
world speed, lastShot refreshed when the cooldown had elapsed, and the
movement pattern applied.  (The position is unaffected by lastShot.) -/
def bossAdvanced (env : Env) (s : GameState) (b : Boss) : Boss :=
  let b1 := { b with x := b.x - s.worldSpeed * 0.5 }
  let b2 := if env.now - b1.lastShot > 1000 then { b1 with lastShot := env.now } else b1
  bossPattern env b2

/-- One boss of the boss filter (lines 474-523): half-speed scroll, a shot
at the pencil whenever more than 1000 ms passed since lastShot (fired
before the stomp check, from the pre-movement position), the movement
pattern, the stomp branch (descending pencil, not invulnerable: health
-10, bounce to -8, defeat at health ≤ 0 with score bonus and level
complete), and the escape check.  The stomp condition reads the shared
`pencil` local of the source directly (`s.pencil`), which the projectile
push cannot have modified. -/
def bossStep (env : Env) (s : GameState) (b : Boss) : GameState :=
  let b1 := { b with x := b.x - s.worldSpeed * 0.5 }
  let s1 :=
    if env.now - b1.lastShot > 1000 then
      { s with projectiles := s.projectiles ++
          [createProjectile env.sqrtFn b1.x (b1.y + b1.height / 2) s.pencil.x s.pencil.y b1.pattern] }
    else s
  let b3 := bossAdvanced env s b
  if checkCollision s.pencil.rect b3.rect ∧ 0 < s.pencil.velocityY ∧ s.pencil.invulnerable = 0 then
    let b4 := { b3 with health := b3.health - 10 }
    let s2 := { s1 with pencil := { s.pencil with velocityY := -8 } }
    if b4.health ≤ 0 then
      { s2 with bossDefeated := s2.bossDefeated + 1, score := s2.score + 5000,
                phase := Phase.levelComplete }
    else finishBoss s2 b4
  else finishBoss s1 b3

/-- One projectile of the projectile filter (lines 526-550): ballistic
advance, off-screen removal beyond a 100-unit margin on either side of
the 800-wide viewport, and damage on overlap — the projectile is consumed
by the hit. -/
def projectileStep (s : GameState) (pr : Projectile) : GameState :=
  let pr := { pr with x := pr.x + pr.speedX, y := pr.y + pr.speedY }
  if pr.x < s.camera - 100 ∨ pr.x > s.camera + 800 + 100 then s
  else if checkCollision s.pencil.rect pr.rect ∧ s.pencil.invulnerable = 0 then
    applyDamage s
  else { s with projectiles := s.projectiles ++ [pr] }

/-- `state.obstacles = state.obstacles.filter(...)` — the filter callback
mutates the shared state, so it is a left fold rebuilding the list. -/
def obstaclesPhase (s : GameState) : GameState :=
  s.obstacles.foldl obstacleStep { s with obstacles := [] }

/-- `state.enemies = state.enemies.filter(...)`. -/
def enemiesPhase (env : Env) (s : GameState) : GameState :=
  s.enemies.foldl (enemyStep env) { s with enemies := [] }

/-- `state.bosses = state.bosses.filter(...)`. -/
def bossesPhase (env : Env) (s : GameState) : GameState :=
  s.bosses.foldl (bossStep env) { s with bosses := [] }

/-- `state.projectiles = state.projectiles.filter(...)`. -/
def projectilesPhase (s : GameState) : GameState :=
  s.projectiles.foldl projectileStep { s with projectiles := [] }

/-- Everything after the spawn block on a non-early-return tick: boss
spawning, the four entity filters in source order, and the per-tick score
increment (line 664). -/
def postSpawn (env : Env) (s : GameState) : GameState :=
  let s := bossSpawnStep s
  let s := obstaclesPhase s
  let s := enemiesPhase env s
  let s := bossesPhase env s
  let s := projectilesPhase s
  { s with score := s.score + 1 }

/-- One full execution of gameLoop's state updates. -/
def tick (env : Env) (s : GameState) : GameState :=
  let s1 := preTick env s
  let sp := spawnStep env s1
  if sp.2 then sp.1 else postSpawn env sp.1

/-- The loop driver: gameLoop only runs while the phase is playing (the
effect returns early otherwise and the animation frame is cancelled). -/
def step (env : Env) (s : GameState) : GameState :=
  if s.phase = Phase.playing then tick env s else s

/-! ### Invariants used in the proofs -/

/-- Damage bookkeeping within one tick, anchored at the tick-entry lives
value `L`: either no life has been lost yet, or exactly one has been,
the 120-tick invulnerability window is armed (which blocks every further
damage site this tick), and a zero-or-below lives value forced the
gameOver phase at the damage site. -/
def DamageInv (L : ℤ) (u : GameState) : Prop :=
  u.lives = L ∨
    (u.lives = L - 1 ∧ u.pencil.invulnerable = 120 ∧
      (u.lives ≤ 0 → u.phase = Phase.gameOver))

/-- No-damage bookkeeping: lives and the invulnerability counter are
frozen at `L` and `I` through the collision passes (used when `I ≠ 0`,
which disables every damage and stomp site). -/
def NoDamInv (L : ℤ) (I : ℕ) (u : GameState) : Prop :=
  u.lives = L ∧ u.pencil.invulnerable = I

/-- Boss-health bookkeeping for a tick without a possible stomp: the
pencil is not ascending-checked as descending (velocityY ≤ 0) and every
live boss either carries the health of a boss from the entry list `S` or
is freshly spawned at full health. -/
def BossesInv (S : List Boss) (u : GameState) : Prop :=
  u.pencil.velocityY ≤ 0 ∧
    ∀ b' ∈ u.bosses, (∃ b0 ∈ S, b'.health = b0.health) ∨ b'.health = b'.maxHealth

/-! ### Concrete instances used by witnesses and counterexamples -/

/-- A pre-game state (everything zeroed, menu phase); only used as the
ignored argument of `startGame` and as a base for concrete run states. -/
def menuState : GameState :=
  { phase := Phase.menu, score := 0, lives := 0, level := 0, bossDefeated := 0,
    pencil := { x := 0, y := 0, width := 0, height := 0, velocityY := 0,
                onGround := false, invulnerable := 0 },
    camera := 0, worldSpeed := 0, obstacles := [], enemies := [], bosses := [],
    projectiles := [], levelProgress := 0, nextObstacle := 0, nextEnemy := 0,
    bossActive := false, bossSpawned := false, levelDistance := 0,
    backgroundOffset := 0 }

/-- A neutral tick environment: no jump key, Date.now() = 0, both random
draws 0, and all library math calls returning 0 (correct for Math.sqrt at
0 and for the sine and cosine inputs that never get used). -/
def envZero : Env :=
  { up := false, now := 0, obstacleChoice := 0, enemyChoice := 0,
    sqrtFn := fun _ => 0, sinBounce := 0, sin003 := 0, cos004 := 0,
    sin002 := 0 }

/-- A grounded pencil on the floor, as at rest after a landing. -/
def pFloor : Pencil :=
  { x := 100, y := 392, width := 40, height := 8, velocityY := 0,
    onGround := true, invulnerable := 0 }

/-- Boss-level (level 5) run state whose boss has scrolled far past the
camera's trailing edge: the escape check fires this tick. -/
def sEscape : GameState :=
  { startGame menuState with
      level := 5, bossActive := true, bossSpawned := true,
      bosses := [{ x := -10000, y := 200, width := 80, height := 100,
                   health := 50, maxHealth := 50, pattern := "homework",
                   lastShot := 0, phase := 1 }] }

/-- Environment for the escape tick: Date.now() = 500, within the shot
cooldown of the boss above. -/
def envEscape : Env := { envZero with now := 500 }

/-- Level-1 run state with an obstacle directly over the grounded pencil;
the pencil's invulnerability counter is at its final tick (1). -/
def sGraze : GameState :=
  { startGame menuState with
      pencil := { pFloor with invulnerable := 1 },
      obstacles := [{ x := 110, y := 375, width := 30, height := 25,
                      type := "scissors" }] }

/-- Same overlap with a comfortably positive invulnerability counter. -/
def sShield : GameState :=
  { startGame menuState with
      pencil := { pFloor with invulnerable := 5 },
      obstacles := [{ x := 110, y := 375, width := 30, height := 25,
                      type := "scissors" }] }

/-- Boss-level state for a fatal stomp: the pencil is mid-air, descending
(velocityY = 1) and vulnerable, overlapping the boss below. -/
def sStomp : GameState :=
  { startGame menuState with
      level := 5, bossActive := true, bossSpawned := true,
      pencil := { x := 100, y := 266, width := 40, height := 8,
                  velocityY := 1, onGround := false, invulnerable := 0 } }

/-- A teacher-pattern boss one stomp from defeat, placed under `sStomp`'s
pencil after this tick's half-speed scroll. -/
def bStomp : Boss :=
  { x := 131.5, y := 176, width := 80, height := 100, health := 10,
    maxHealth := 50, pattern := "homework", lastShot := 0, phase := 1 }

/-- Boss-level state whose boss shot origin coincides with the pencil
position (the degenerate aim vector of claim C6). -/
def sAim : GameState :=
  { startGame menuState with
      level := 5, bossActive := true, bossSpawned := true,
      pencil := { x := 100, y := 250, width := 40, height := 8,
                  velocityY := -1, onGround := false, invulnerable := 0 } }

/-- Boss whose post-scroll position puts the shot origin exactly on
`sAim`'s pencil: x = 101.5 - 1.5 = 100 and y + height/2 = 250.  Its last
shot is old enough for the cooldown to have elapsed. -/
def bAim : Boss :=
  { x := 101.5, y := 200, width := 80, height := 100, health := 50,
    maxHealth := 50, pattern := "homework", lastShot := -2000, phase := 1 }

/-- A scissors obstacle well clear of the pencil. -/
def obFar : Obstacle :=
  { x := 500, y := 375, width := 30, height := 25, type := "scissors" }

/-- Level-1 state with a single distant obstacle and spawn thresholds out
of reach, isolating pure scrolling for claim C7. -/
def sScroll : GameState :=
  { startGame menuState with
      pencil := pFloor, obstacles := [obFar],
      nextObstacle := 1000, nextEnemy := 1000 }

/-- Boss-level state before the tick in which the boss is both shot-ready
and fatally stomped: the pencil enters the tick at y = 265 rising input
none, velocityY 0.4, so physics leaves it at (100, 266) descending. -/
def sFire : GameState :=
  { startGame menuState with
      level := 5, bossActive := true, bossSpawned := true,
      pencil := { x := 100, y := 265, width := 40, height := 8,
                  velocityY := 0.4, onGround := false, invulnerable := 0 },
      bosses := [bStomp] }

/-- Environment for `sFire`: Date.now() = 2000 (cooldown elapsed) and
Math.sqrt evaluated at the one argument that occurs, 2500, giving 50. -/
def envFire : Env := { envZero with now := 2000, sqrtFn := fun _ => 50 }

/-- Level-1 state one tick away from the 2000-distance completion. -/
def sAlmost : GameState :=
  { startGame menuState with
      pencil := pFloor, levelDistance := 1999,
      nextObstacle := 5000, nextEnemy := 5000 }

/-- Level-1 state with the spawn threshold already crossed after this
tick's 3-unit advance. -/
def sSpawn : GameState :=
  { startGame menuState with levelDistance := 3 }

/-- A run state whose pencil still carries the -8 stomp bounce. -/
def sBounce : GameState :=
  { startGame menuState with
      level := 5, bossActive := true, bossSpawned := true,
      pencil := { x := 100, y := 200, width := 40, height := 8,
                  velocityY := -8, onGround := false, invulnerable := 0 },
      bosses := [createBoss "teacher"] }

/-! ### Generic fold and preservation lemmas -/

theorem foldl_preserve {α β : Type} (J : α → Prop) (H : β → Prop)
    (f : α → β → α) (hstep : ∀ a b, H b → J a → J (f a b)) :
    ∀ (l : List β) (a : α), (∀ b ∈ l, H b) → J a → J (l.foldl f a) := by
  intro l
  induction l with
  | nil => exact fun a _ h => h
  | cons x xs ih =>
      intro a hmem h
      exact ih _ (fun b hb => hmem b (List.mem_cons_of_mem _ hb))
        (hstep a x (hmem x (List.mem_cons_self _ _)) h)

theorem pencilPhysics_invulnerable (up : Bool) (p : Pencil) :
    (pencilPhysics up p).invulnerable = p.invulnerable := by
  unfold pencilPhysics
  dsimp only
  split_ifs <;> rfl

theorem invulnStep_invulnerable (p : Pencil) :
    (invulnStep p).invulnerable = p.invulnerable - 1 := by
  unfold invulnStep
  split_ifs with h
  · rfl
  · omega

theorem invulnStep_velocityY (p : Pencil) :
    (invulnStep p).velocityY = p.velocityY := by
  unfold invulnStep
  split_ifs <;> rfl

theorem pencilPhysics_vel_nonpos {p : Pencil} (h : p.velocityY ≤ -0.6)
    (up : Bool) : (pencilPhysics up p).velocityY ≤ 0 := by
  unfold pencilPhysics
  dsimp only
  split_ifs <;> dsimp only at * <;> linarith

theorem spawnStep_fst_lives (env : Env) (s : GameState) :
    ((spawnStep env s).1).lives = s.lives := by
  unfold spawnStep
  dsimp only
  split_ifs <;> rfl

theorem spawnStep_fst_pencil (env : Env) (s : GameState) :
    ((spawnStep env s).1).pencil = s.pencil := by
  unfold spawnStep
  dsimp only
  split_ifs <;> rfl

theorem spawnStep_fst_bosses (env : Env) (s : GameState) :
    ((spawnStep env s).1).bosses = s.bosses := by
  unfold spawnStep
  dsimp only
  split_ifs <;> rfl

theorem bossSpawnStep_lives (s : GameState) :
    (bossSpawnStep s).lives = s.lives := by
  unfold bossSpawnStep
  dsimp only
  split_ifs <;> rfl

theorem bossSpawnStep_pencil (s : GameState) :
    (bossSpawnStep s).pencil = s.pencil := by
  unfold bossSpawnStep
  dsimp only
  split_ifs <;> rfl

/-! ### Damage bookkeeping through one tick (claims C1, C2) -/

theorem applyDamage_damageInv {L : ℤ} {s : GameState} (h : s.lives = L) :
    DamageInv L (applyDamage s) := by
  unfold applyDamage DamageInv
  dsimp only
  right
  refine ⟨by omega, rfl, fun hle => ?_⟩
  rw [if_pos hle]

theorem obstacleStep_damageInv {L : ℤ} {s : GameState} {ob : Obstacle}
    (h : DamageInv L s) : DamageInv L (obstacleStep s ob) := by
  unfold obstacleStep
  dsimp only
  split_ifs with hoff hc
  · exact h
  · rcases h with h1 | ⟨h1, h2, h3⟩
    · exact applyDamage_damageInv h1
    · rw [h2] at hc
      exact absurd hc.2 (by norm_num)
  · exact h

theorem applyDamage_damageInv' {L : ℤ} {s : GameState} (h : DamageInv L s)
    (hinv : s.pencil.invulnerable = 0) : DamageInv L (applyDamage s) := by
  rcases h with h1 | ⟨h1, h2, h3⟩
  · exact applyDamage_damageInv h1
  · rw [h2] at hinv
    exact absurd hinv (by norm_num)

theorem enemyStep_damageInv {L : ℤ} {env : Env} {s : GameState} {e : Enemy}
    (h : DamageInv L s) : DamageInv L (enemyStep env s e) := by
  unfold enemyStep
  dsimp only
  split_ifs with hr ho1 hc1 ho2 hc2
  · exact h
  · exact applyDamage_damageInv' h hc1.2
  · exact h
  · exact h
  · exact applyDamage_damageInv' h hc2.2
  · exact h

theorem projectileStep_damageInv {L : ℤ} {s : GameState} {pr : Projectile}
    (h : DamageInv L s) : DamageInv L (projectileStep s pr) := by
  unfold projectileStep
  dsimp only
  split_ifs with hoff hc
  · exact h
  · rcases h with h1 | ⟨h1, h2, h3⟩
    · exact applyDamage_damageInv h1
    · rw [h2] at hc
      exact absurd hc.2 (by norm_num)
  · exact h

theorem bossStep_fields (env : Env) (s : GameState) (b : Boss) :
    (bossStep env s b).lives = s.lives ∧
    (bossStep env s b).pencil.invulnerable = s.pencil.invulnerable ∧
    ((bossStep env s b).phase = s.phase ∨
     (bossStep env s b).phase = Phase.gameOver ∨
     ((bossStep env s b).phase = Phase.levelComplete ∧
       s.pencil.invulnerable = 0)) := by
  unfold bossStep finishBoss
  dsimp only
  split_ifs <;> refine ⟨rfl, rfl, ?_⟩ <;>
    first
    | exact Or.inl rfl
    | exact Or.inr (Or.inl rfl)
    | exact Or.inr (Or.inr ⟨rfl, by tauto⟩)

theorem bossStep_damageInv {L : ℤ} {env : Env} {s : GameState} {b : Boss}
    (h : DamageInv L s) : DamageInv L (bossStep env s b) := by
  obtain ⟨hl, hi, hp⟩ := bossStep_fields env s b
  rcases h with h1 | ⟨h1, h2, h3⟩
  · exact Or.inl (hl.trans h1)
  · right
    refine ⟨by omega, by rw [hi, h2], fun hle => ?_⟩
    rcases hp with hp | hp | ⟨hp, hz⟩
    · rw [hp]
      exact h3 (by omega)
    · exact hp
    · rw [h2] at hz
      exact absurd hz (by norm_num)

theorem bossSpawnStep_damageInv {L : ℤ} {s : GameState}
    (h : DamageInv L s) : DamageInv L (bossSpawnStep s) := by
  unfold bossSpawnStep
  dsimp only
  split_ifs <;> exact h

theorem obstaclesPhase_damageInv {L : ℤ} {s : GameState}
    (h : DamageInv L s) : DamageInv L (obstaclesPhase s) :=
  foldl_preserve (DamageInv L) (fun _ : Obstacle => True) obstacleStep
    (fun _ _ _ hj => obstacleStep_damageInv hj) _ _ (fun _ _ => trivial) h

theorem enemiesPhase_damageInv {L : ℤ} {env : Env} {s : GameState}
    (h : DamageInv L s) : DamageInv L (enemiesPhase env s) :=
  foldl_preserve (DamageInv L) (fun _ : Enemy => True) (enemyStep env)
    (fun _ _ _ hj => enemyStep_damageInv hj) _ _ (fun _ _ => trivial) h

theorem bossesPhase_damageInv {L : ℤ} {env : Env} {s : GameState}
    (h : DamageInv L s) : DamageInv L (bossesPhase env s) :=
  foldl_preserve (DamageInv L) (fun _ : Boss => True) (bossStep env)
    (fun _ _ _ hj => bossStep_damageInv hj) _ _ (fun _ _ => trivial) h

theorem projectilesPhase_damageInv {L : ℤ} {s : GameState}
    (h : DamageInv L s) : DamageInv L (projectilesPhase s) :=
  foldl_preserve (DamageInv L) (fun _ : Projectile => True) projectileStep
    (fun _ _ _ hj => projectileStep_damageInv hj) _ _ (fun _ _ => trivial) h

theorem postSpawn_damageInv {L : ℤ} {env : Env} {t : GameState}
    (h : DamageInv L t) : DamageInv L (postSpawn env t) :=
  projectilesPhase_damageInv
    (bossesPhase_damageInv
      (enemiesPhase_damageInv
        (obstaclesPhase_damageInv (bossSpawnStep_damageInv h))))

theorem tick_damageInv (env : Env) (s : GameState) :
    DamageInv s.lives (tick env s) := by
  unfold tick
  dsimp only
  by_cases hsp : (spawnStep env (preTick env s)).2 = true
  · rw [if_pos hsp]
    left
    rw [spawnStep_fst_lives]
    rfl
  · rw [if_neg hsp]
    apply postSpawn_damageInv
    left
    rw [spawnStep_fst_lives]
    rfl

theorem obstacleStep_noDam {L : ℤ} {I : ℕ} {s : GameState} {ob : Obstacle}
    (hI : I ≠ 0) (h : NoDamInv L I s) : NoDamInv L I (obstacleStep s ob) := by
  unfold obstacleStep
  dsimp only
  split_ifs with hoff hc
  · exact h
  · exact absurd (h.2.symm.trans hc.2) hI
  · exact h

theorem enemyStep_noDam {L : ℤ} {I : ℕ} {env : Env} {s : GameState}
    {e : Enemy} (hI : I ≠ 0) (h : NoDamInv L I s) :
    NoDamInv L I (enemyStep env s e) := by
  unfold enemyStep
  dsimp only
  split_ifs with hr ho1 hc1 ho2 hc2
  · exact h
  · exact absurd (h.2.symm.trans hc1.2) hI
  · exact h
  · exact h
  · exact absurd (h.2.symm.trans hc2.2) hI
  · exact h

theorem projectileStep_noDam {L : ℤ} {I : ℕ} {s : GameState}
    {pr : Projectile} (hI : I ≠ 0) (h : NoDamInv L I s) :
    NoDamInv L I (projectileStep s pr) := by
  unfold projectileStep
  dsimp only
  split_ifs with hoff hc
  · exact h
  · exact absurd (h.2.symm.trans hc.2) hI
  · exact h

theorem bossStep_noDam {L : ℤ} {I : ℕ} {env : Env} {s : GameState}
    {b : Boss} (h : NoDamInv L I s) : NoDamInv L I (bossStep env s b) := by
  obtain ⟨hl, hi, _⟩ := bossStep_fields env s b
  exact ⟨hl.trans h.1, hi.trans h.2⟩

theorem bossSpawnStep_noDam {L : ℤ} {I : ℕ} {s : GameState}
    (h : NoDamInv L I s) : NoDamInv L I (bossSpawnStep s) := by
  unfold bossSpawnStep
  dsimp only
  split_ifs <;> exact h

theorem postSpawn_noDam {L : ℤ} {I : ℕ} {env : Env} {t : GameState}
    (hI : I ≠ 0) (h : NoDamInv L I t) : NoDamInv L I (postSpawn env t) := by
  have h1 : NoDamInv L I (bossSpawnStep t) := bossSpawnStep_noDam h
  have h2 : NoDamInv L I (obstaclesPhase (bossSpawnStep t)) :=
    foldl_preserve (NoDamInv L I) (fun _ : Obstacle => True) obstacleStep
      (fun _ _ _ hj => obstacleStep_noDam hI hj) _ _ (fun _ _ => trivial) h1
  have h3 : NoDamInv L I (enemiesPhase env (obstaclesPhase (bossSpawnStep t))) :=
    foldl_preserve (NoDamInv L I) (fun _ : Enemy => True) (enemyStep env)
      (fun _ _ _ hj => enemyStep_noDam hI hj) _ _ (fun _ _ => trivial) h2
  have h4 : NoDamInv L I (bossesPhase env (enemiesPhase env (obstaclesPhase (bossSpawnStep t)))) :=
    foldl_preserve (NoDamInv L I) (fun _ : Boss => True) (bossStep env)
      (fun _ _ _ hj => bossStep_noDam hj) _ _ (fun _ _ => trivial) h3
  have h5 : NoDamInv L I (projectilesPhase (bossesPhase env (enemiesPhase env (obstaclesPhase (bossSpawnStep t))))) :=
    foldl_preserve (NoDamInv L I) (fun _ : Projectile => True) projectileStep
      (fun _ _ _ hj => projectileStep_noDam hI hj) _ _ (fun _ _ => trivial) h4
  exact h5

theorem tick_noDam (env : Env) (s : GameState)
    (h2le : 2 ≤ s.pencil.invulnerable) :
    NoDamInv s.lives (s.pencil.invulnerable - 1) (tick env s) := by
  have hI : s.pencil.invulnerable - 1 ≠ 0 := by omega
  have hpre : NoDamInv s.lives (s.pencil.invulnerable - 1) (preTick env s) := by
    refine ⟨rfl, ?_⟩
    show (invulnStep (pencilPhysics env.up s.pencil)).invulnerable = _
    rw [invulnStep_invulnerable, pencilPhysics_invulnerable]
  have hsp1 : NoDamInv s.lives (s.pencil.invulnerable - 1)
      ((spawnStep env (preTick env s)).1) := by
    refine ⟨(spawnStep_fst_lives _ _).trans hpre.1, ?_⟩
    rw [spawnStep_fst_pencil]
    exact hpre.2
  unfold tick
  dsimp only
  by_cases hsp : (spawnStep env (preTick env s)).2 = true
  · rw [if_pos hsp]
    exact hsp1
  · rw [if_neg hsp]
    exact postSpawn_noDam hI hsp1

/-! ### Claim theorems -/

/-- Claim C1, amended.  Across one tick from a playing state with at
least one life: lives never increase and never go negative, and a tick
that brings lives to 0 enters the gameOver phase; once the phase is not
playing, the loop no longer runs at all (`step` is the identity), so no
further life loss is possible.  (The original "gameOver iff lives just
reached 0" fails: the boss-escape check also enters gameOver with lives
untouched, see the counterexample.) -/
theorem claim_C1 (env : Env) (s : GameState) (h : 1 ≤ s.lives) :
    ((tick env s).lives ≤ s.lives ∧ 0 ≤ (tick env s).lives ∧
      ((tick env s).lives = 0 → (tick env s).phase = Phase.gameOver)) ∧
    ∀ t : GameState, t.phase ≠ Phase.playing → step env t = t := by
  constructor
  · rcases tick_damageInv env s with h1 | ⟨h1, h2, h3⟩
    · exact ⟨le_of_eq h1, by omega, fun h0 => ((by omega : False)).elim⟩
    · exact ⟨by omega, by omega, fun h0 => h3 (by omega)⟩
  · intro t ht
    unfold step
    rw [if_neg ht]

set_option maxRecDepth 20000 in
/-- Witness for claim C1 at the freshly started game. -/
theorem claim_C1_witness :
    1 ≤ (startGame menuState).lives ∧
    (((tick envZero (startGame menuState)).lives ≤ (startGame menuState).lives ∧
      0 ≤ (tick envZero (startGame menuState)).lives ∧
      ((tick envZero (startGame menuState)).lives = 0 →
        (tick envZero (startGame menuState)).phase = Phase.gameOver)) ∧
     ∀ t : GameState, t.phase ≠ Phase.playing → step envZero t = t) :=
  ⟨by with_unfolding_all decide,
   claim_C1 envZero (startGame menuState) (by with_unfolding_all decide)⟩

set_option maxRecDepth 20000 in
/-- Counterexample to claim C1 as stated: on a boss level whose boss has
scrolled past the camera's trailing edge, the tick enters gameOver while
lives are still 3 — the phase change is not equivalent to lives having
just reached 0. -/
theorem claim_C1_cex :
    (tick envEscape sEscape).phase = Phase.gameOver ∧
    (tick envEscape sEscape).lives = 3 := by
  with_unfolding_all decide

/-- Claim C2, amended.  A tick that starts with invulnerabilityTicks ≥ 2
applies no damage whatever hazards overlap the runner (lives unchanged)
and decrements the counter by exactly one; and the per-tick counter
update is truncated decrement (floored at 0).  (As stated the claim
fails for a tick starting at exactly 1: the counter is decremented to 0
before the collision checks run, so damage can land that same tick and
rearm the counter to 120 — see the counterexample.) -/
theorem claim_C2 (env : Env) (s : GameState)
    (h : 2 ≤ s.pencil.invulnerable) :
    ((tick env s).lives = s.lives ∧
     (tick env s).pencil.invulnerable = s.pencil.invulnerable - 1) ∧
    ∀ p : Pencil, (invulnStep p).invulnerable = p.invulnerable - 1 :=
  ⟨⟨(tick_noDam env s h).1, (tick_noDam env s h).2⟩, invulnStep_invulnerable⟩

set_option maxRecDepth 20000 in
/-- Witness for claim C2: with the counter at 5 and an obstacle directly
overlapping the runner, the tick leaves lives at 3 and the counter at 4. -/
theorem claim_C2_witness :
    2 ≤ sShield.pencil.invulnerable ∧
    (((tick envZero sShield).lives = sShield.lives ∧
      (tick envZero sShield).pencil.invulnerable = sShield.pencil.invulnerable - 1) ∧
     ∀ p : Pencil, (invulnStep p).invulnerable = p.invulnerable - 1) :=
  ⟨by with_unfolding_all decide,
   claim_C2 envZero sShield (by with_unfolding_all decide)⟩

set_option maxRecDepth 20000 in
/-- Counterexample to claim C2 as stated: a tick beginning with
invulnerabilityTicks = 1 (> 0) still applies damage, because the counter
is decremented to 0 before the collision pass; lives drop from 3 to 2 and
the counter is rearmed to 120 rather than decremented. -/
theorem claim_C2_cex :
    sGraze.pencil.invulnerable = 1 ∧ sGraze.lives = 3 ∧
    (tick envZero sGraze).lives = 2 ∧
    (tick envZero sGraze).pencil.invulnerable = 120 := by
  with_unfolding_all decide

theorem pencilPhysics_y_bounds (b : Bool) (q : Pencil) :
    0 ≤ (pencilPhysics b q).y ∧ (pencilPhysics b q).y ≤ 392 := by
  unfold pencilPhysics
  dsimp only
  split_ifs <;> dsimp only at * <;> constructor <;> linarith

theorem jump_tick (p : Pencil) (hy : p.y = 392) (hg : p.onGround = true) :
    pencilPhysics true p =
      { p with y := 392 + (-12 + 0.6), velocityY := -12 + 0.6,
               onGround := false } := by
  unfold pencilPhysics
  rw [hg, hy]
  norm_num

/-- Claim C4, amended.  A grounded runner on the floor with the jump key
held leaves the tick with verticalVelocity -J + g = -11.4 and grounded
false (gravity is added in the same tick as the impulse, so the velocity
at the start of the next tick is -J + g, not -J as the claim states);
every tick's physics keeps y clamped to [0, 392]; and two ticks after the
jump the runner sits strictly below the floor. -/
theorem claim_C4 (p : Pencil) (up2 : Bool) (hy : p.y = 392)
    (hg : p.onGround = true) :
    (pencilPhysics true p).velocityY = -12 + 0.6 ∧
    (pencilPhysics true p).onGround = false ∧
    (pencilPhysics true p).y = 392 + (-12 + 0.6) ∧
    (pencilPhysics up2 (pencilPhysics true p)).y < 392 ∧
    ∀ (b : Bool) (q : Pencil),
      0 ≤ (pencilPhysics b q).y ∧ (pencilPhysics b q).y ≤ 392 := by
  refine ⟨?_, ?_, ?_, ?_, pencilPhysics_y_bounds⟩
  · rw [jump_tick p hy hg]
  · rw [jump_tick p hy hg]
  · rw [jump_tick p hy hg]
  · have h2 : (pencilPhysics up2 (pencilPhysics true p)).y =
        392 + (-12 + 0.6) + (-12 + 0.6 + 0.6) := by
      rw [jump_tick p hy hg]
      unfold pencilPhysics
      simp only [Bool.and_false]
      norm_num
    rw [h2]
    norm_num

/-- Witness for claim C4 at the resting floor state. -/
theorem claim_C4_witness :
    (pFloor.y = 392 ∧ pFloor.onGround = true) ∧
    ((pencilPhysics true pFloor).velocityY = -12 + 0.6 ∧
     (pencilPhysics true pFloor).onGround = false ∧
     (pencilPhysics true pFloor).y = 392 + (-12 + 0.6) ∧
     (pencilPhysics false (pencilPhysics true pFloor)).y < 392 ∧
     ∀ (b : Bool) (q : Pencil),
       0 ≤ (pencilPhysics b q).y ∧ (pencilPhysics b q).y ≤ 392) :=
  ⟨⟨rfl, rfl⟩, claim_C4 pFloor false rfl rfl⟩

/-- Counterexample to claim C4 as stated: after the jump tick the
velocity is -11.4 (impulse plus same-tick gravity), not -J = -12, so the
next tick does not start with verticalVelocity = -J. -/
theorem claim_C4_cex :
    (pencilPhysics true pFloor).velocityY = -57/5 ∧
    (pencilPhysics true pFloor).velocityY ≠ -12 := by
  with_unfolding_all decide

/-- Claim C5, amended.  On a normal level, whenever distanceIntoLevel
exceeds nextObstacleAt, exactly one obstacle is appended, spawned at
camera.x + 800 (the viewport width), and the threshold is set to
distanceIntoLevel + obstacleSpawnPeriod / difficulty — relative to the
current distance, not (as the claim states) to the old threshold; no
obstacle or enemy spawning occurs on boss-kind levels. -/
theorem claim_C5 (env : Env) (s : GameState) :
    ((getLevel s.level).type = "normal" →
     s.levelDistance > s.nextObstacle →
       (spawnStep env s).1.obstacles =
         s.obstacles ++ [createObstacle env.obstacleChoice (s.camera + 800)] ∧
       (spawnStep env s).1.nextObstacle =
         s.levelDistance +
           (getLevel s.level).obstacleFreq / (getLevel s.level).difficulty) ∧
    ((getLevel s.level).type ≠ "normal" → spawnStep env s = (s, false)) := by
  constructor
  · intro hn hgt
    unfold spawnStep
    dsimp only
    rw [if_pos hn, if_pos hgt]
    constructor
    · split_ifs <;> rfl
    · split_ifs <;> rfl
  · intro hn
    unfold spawnStep
    dsimp only
    rw [if_neg hn]

set_option maxRecDepth 20000 in
/-- Witness for claim C5 on level 1 with the threshold just crossed. -/
theorem claim_C5_witness :
    ((getLevel sSpawn.level).type = "normal" ∧
     sSpawn.levelDistance > sSpawn.nextObstacle) ∧
    ((spawnStep envZero sSpawn).1.obstacles = sSpawn.obstacles ++
       [createObstacle envZero.obstacleChoice (sSpawn.camera + 800)] ∧
     (spawnStep envZero sSpawn).1.nextObstacle = sSpawn.levelDistance +
       (getLevel sSpawn.level).obstacleFreq / (getLevel sSpawn.level).difficulty) :=
  ⟨by with_unfolding_all decide,
   (claim_C5 envZero sSpawn).1 (by with_unfolding_all decide)
     (by with_unfolding_all decide)⟩

set_option maxRecDepth 20000 in
/-- Counterexample to claim C5 as stated: on the first tick of a fresh
game the threshold becomes levelDistance + 120/1 = 3 + 120 = 123, not
old threshold + 120/1 = 0 + 120 = 120. -/
theorem claim_C5_cex :
    (tick envZero (startGame menuState)).obstacles.length = 1 ∧
    (tick envZero (startGame menuState)).nextObstacle = 123 ∧
    (tick envZero (startGame menuState)).nextObstacle ≠ 0 + 120 := by
  with_unfolding_all decide

/-- Claim C6, amended.  There is no zero-length-aim guard: whenever the
shot cooldown has elapsed the boss unconditionally creates a projectile
aimed from (x, y + height/2) at the runner, even when those coincide; at
the coincident point the aim distance is 0, so the velocity computation
divides by zero (NaN in JS; 0 under the total rational division of this
embedding) rather than skipping the shot. -/
theorem claim_C6 (env : Env) (s : GameState) (b : Boss)
    (hcool : env.now - b.lastShot > 1000) :
    (bossStep env s b).projectiles = s.projectiles ++
      [createProjectile env.sqrtFn (b.x - s.worldSpeed * 0.5)
        (b.y + b.height / 2) s.pencil.x s.pencil.y b.pattern] ∧
    ∀ (sq : ℚ → ℚ) (x y : ℚ), sq 0 = 0 → aimDistance sq x y x y = 0 := by
  constructor
  · unfold bossStep finishBoss
    dsimp only
    rw [if_pos hcool]
    split_ifs <;> rfl
  · intro sq x y hsq
    unfold aimDistance
    have h0 : (x - x) * (x - x) + (y - y) * (y - y) = 0 := by ring
    rw [h0, hsq]

set_option maxRecDepth 20000 in
/-- Witness for claim C6 at the coincident-aim boss. -/
theorem claim_C6_witness :
    (envZero.now - bAim.lastShot > 1000) ∧
    ((bossStep envZero sAim bAim).projectiles = sAim.projectiles ++
       [createProjectile envZero.sqrtFn (bAim.x - sAim.worldSpeed * 0.5)
         (bAim.y + bAim.height / 2) sAim.pencil.x sAim.pencil.y bAim.pattern] ∧
     ∀ (sq : ℚ → ℚ) (x y : ℚ), sq 0 = 0 → aimDistance sq x y x y = 0) :=
  ⟨by with_unfolding_all decide,
   claim_C6 envZero sAim bAim (by with_unfolding_all decide)⟩

set_option maxRecDepth 20000 in
/-- Counterexample to claim C6 as stated: with the boss shot origin
exactly on the runner position the shot is not skipped — one projectile
is still created — and the aim distance used as divisor is 0. -/
theorem claim_C6_cex :
    bAim.x - sAim.worldSpeed * 0.5 = sAim.pencil.x ∧
    bAim.y + bAim.height / 2 = sAim.pencil.y ∧
    (bossStep envZero sAim bAim).projectiles.length = 1 ∧
    aimDistance envZero.sqrtFn sAim.pencil.x sAim.pencil.y
      sAim.pencil.x sAim.pencil.y = 0 := by
  with_unfolding_all decide

/-- Claim C7, amended.  Obstacles are not static in world space: each
tick the obstacle pass moves every kept obstacle by -worldSpeed while the
camera advances by +worldSpeed, so the screen-relative x of an obstacle
decreases by exactly 2 · worldSpeed per tick, not by worldSpeed. -/
theorem claim_C7 (s : GameState) (ob : Obstacle)
    (hkeep : ¬ (ob.x - s.worldSpeed + ob.width < s.camera - 100)) :
    (obstacleStep s ob).obstacles =
      s.obstacles ++ [{ ob with x := ob.x - s.worldSpeed }] ∧
    (∀ (env : Env) (t : GameState),
      (preTick env t).camera = t.camera + t.worldSpeed) ∧
    (ob.x - s.worldSpeed) - (s.camera + s.worldSpeed) =
      (ob.x - s.camera) - 2 * s.worldSpeed := by
  refine ⟨?_, fun _ _ => rfl, by ring⟩
  unfold obstacleStep
  dsimp only
  rw [if_neg hkeep]
  split_ifs <;> rfl

set_option maxRecDepth 20000 in
/-- Witness for claim C7 at the distant scissors obstacle. -/
theorem claim_C7_witness :
    (¬ (obFar.x - sScroll.worldSpeed + obFar.width < sScroll.camera - 100)) ∧
    ((obstacleStep sScroll obFar).obstacles =
       sScroll.obstacles ++ [{ obFar with x := obFar.x - sScroll.worldSpeed }] ∧
     (∀ (env : Env) (t : GameState),
       (preTick env t).camera = t.camera + t.worldSpeed) ∧
     (obFar.x - sScroll.worldSpeed) - (sScroll.camera + sScroll.worldSpeed) =
       (obFar.x - sScroll.camera) - 2 * sScroll.worldSpeed) :=
  ⟨by with_unfolding_all decide,
   claim_C7 sScroll obFar (by with_unfolding_all decide)⟩

set_option maxRecDepth 20000 in
/-- Counterexample to claim C7 as stated: across one full tick the
obstacle at world x = 500 ends at 497 while the camera ends at 3, so its
screen-relative x drops from 500 to 494 — a decrease of 2 · worldSpeed =
6 per tick, not worldSpeed = 3. -/
theorem claim_C7_cex :
    (tick envZero sScroll).camera = 3 ∧
    (tick envZero sScroll).obstacles = [{ obFar with x := 497 }] ∧
    ((497 : ℚ) - 3 = (obFar.x - sScroll.camera) - 2 * 3) ∧
    ((497 : ℚ) - 3 ≠ (obFar.x - sScroll.camera) - 3) := by
  with_unfolding_all decide

/-- Claim C9, confirmed.  `startGame` produces one fixed constant state —
score 0, lives 3, level 1, distance 0, all per-level entity collections
empty, phase playing — independent of the prior run state. -/
theorem claim_C9 (s t : GameState) :
    startGame s = startGame t ∧ (startGame s).score = 0 ∧
    (startGame s).lives = 3 ∧ (startGame s).level = 1 ∧
    (startGame s).levelDistance = 0 ∧ (startGame s).obstacles = [] ∧
    (startGame s).enemies = [] ∧ (startGame s).bosses = [] ∧
    (startGame s).projectiles = [] ∧ (startGame s).phase = Phase.playing :=
  ⟨rfl, rfl, rfl, rfl, rfl, rfl, rfl, rfl, rfl, rfl⟩

/-! ### Boss-step lemmas (claims C3, C6, C8, C10) -/

theorem bossAdvanced_health (env : Env) (s : GameState) (b : Boss) :
    (bossAdvanced env s b).health = b.health := by
  unfold bossAdvanced bossPattern
  dsimp only
  split_ifs <;> rfl

theorem bossAdvanced_maxHealth (env : Env) (s : GameState) (b : Boss) :
    (bossAdvanced env s b).maxHealth = b.maxHealth := by
  unfold bossAdvanced bossPattern
  dsimp only
  split_ifs <;> rfl

theorem spawnStep_fst_score (env : Env) (s : GameState) :
    ((spawnStep env s).1).score = s.score := by
  unfold spawnStep
  dsimp only
  split_ifs <;> rfl

theorem spawnStep_complete (env : Env) (t : GameState)
    (hn : (getLevel t.level).type = "normal") (hgt : t.levelDistance > 2000) :
    (spawnStep env t).2 = true ∧
    (spawnStep env t).1.phase = Phase.levelComplete ∧
    ∃ tail, (spawnStep env t).1.obstacles = t.obstacles ++ tail := by
  unfold spawnStep
  dsimp only
  rw [if_pos hn]
  split_ifs with h1 h2 <;>
    first
    | exact ⟨rfl, rfl, _, rfl⟩
    | exact ⟨rfl, rfl, [], (List.append_nil _).symm⟩

theorem bossStep_noStomp (env : Env) (s : GameState) (b : Boss)
    (hv : s.pencil.velocityY ≤ 0) :
    (bossStep env s b).pencil = s.pencil ∧
    ((bossStep env s b).bosses = s.bosses ∨
     ∃ b', (bossStep env s b).bosses = s.bosses ++ [b'] ∧
       b'.health = b.health ∧ b'.maxHealth = b.maxHealth) := by
  unfold bossStep finishBoss
  dsimp only
  rw [if_neg (fun hc => absurd hc.2.1 (not_lt.mpr hv))]
  constructor
  · split_ifs <;> rfl
  · split_ifs <;>
      first
      | exact Or.inl rfl
      | exact Or.inr ⟨_, rfl, bossAdvanced_health env s b,
          bossAdvanced_maxHealth env s b⟩

theorem bossStep_health_dichotomy (env : Env) (s : GameState) (b : Boss) :
    ∀ b' ∈ (bossStep env s b).bosses,
      b' ∈ s.bosses ∨ b'.health = b.health ∨ b'.health = b.health - 10 := by
  unfold bossStep finishBoss
  dsimp only
  split_ifs <;> intro b' hb' <;>
    first
    | exact Or.inl hb'
    | { rcases List.mem_append.mp hb' with h2 | h2
        · exact Or.inl h2
        · rw [List.mem_singleton.mp h2]
          first
          | exact Or.inr (Or.inl (bossAdvanced_health env s b))
          | { right; right
              show ({ bossAdvanced env s b with
                health := (bossAdvanced env s b).health - 10 } : Boss).health =
                  b.health - 10
              rw [show ({ bossAdvanced env s b with
                health := (bossAdvanced env s b).health - 10 } : Boss).health =
                  (bossAdvanced env s b).health - 10 from rfl,
                bossAdvanced_health] } }

theorem createBoss_health_eq_max (t : String) :
    (createBoss t).health = (createBoss t).maxHealth := by
  unfold createBoss
  split_ifs <;> rfl

theorem obstacleStep_keeps (s : GameState) (ob : Obstacle) :
    (obstacleStep s ob).pencil.velocityY = s.pencil.velocityY ∧
    (obstacleStep s ob).bosses = s.bosses := by
  unfold obstacleStep applyDamage
  dsimp only
  split_ifs <;> exact ⟨rfl, rfl⟩

theorem enemyStep_keeps (env : Env) (s : GameState) (e : Enemy) :
    (enemyStep env s e).pencil.velocityY = s.pencil.velocityY ∧
    (enemyStep env s e).bosses = s.bosses := by
  unfold enemyStep applyDamage
  dsimp only
  split_ifs <;> exact ⟨rfl, rfl⟩

theorem projectileStep_keeps (s : GameState) (pr : Projectile) :
    (projectileStep s pr).pencil.velocityY = s.pencil.velocityY ∧
    (projectileStep s pr).bosses = s.bosses := by
  unfold projectileStep applyDamage
  dsimp only
  split_ifs <;> exact ⟨rfl, rfl⟩

theorem obstacleStep_bossesInv {S : List Boss} {s : GameState} {ob : Obstacle}
    (h : BossesInv S s) : BossesInv S (obstacleStep s ob) := by
  obtain ⟨h1, h2⟩ := obstacleStep_keeps s ob
  refine ⟨?_, ?_⟩
  · rw [h1]
    exact h.1
  · rw [h2]
    exact h.2

theorem enemyStep_bossesInv {S : List Boss} {env : Env} {s : GameState}
    {e : Enemy} (h : BossesInv S s) : BossesInv S (enemyStep env s e) := by
  obtain ⟨h1, h2⟩ := enemyStep_keeps env s e
  refine ⟨?_, ?_⟩
  · rw [h1]
    exact h.1
  · rw [h2]
    exact h.2

theorem projectileStep_bossesInv {S : List Boss} {s : GameState}
    {pr : Projectile} (h : BossesInv S s) :
    BossesInv S (projectileStep s pr) := by
  obtain ⟨h1, h2⟩ := projectileStep_keeps s pr
  refine ⟨?_, ?_⟩
  · rw [h1]
    exact h.1
  · rw [h2]
    exact h.2

theorem bossStep_bossesInv {S : List Boss} {env : Env} {s : GameState}
    {b : Boss}
    (hb : (∃ b0 ∈ S, b.health = b0.health) ∨ b.health = b.maxHealth)
    (h : BossesInv S s) : BossesInv S (bossStep env s b) := by
  obtain ⟨hp, hmem⟩ := h
  obtain ⟨hpen, hlist⟩ := bossStep_noStomp env s b hp
  constructor
  · rw [hpen]
    exact hp
  · rcases hlist with h1 | ⟨b', h1, hh, hm⟩
    · rw [h1]
      exact hmem
    · rw [h1]
      intro b'' hb''
      rcases List.mem_append.mp hb'' with h2 | h2
      · exact hmem _ h2
      · rw [List.mem_singleton.mp h2]
        rcases hb with ⟨b0, hb0, he⟩ | he
        · exact Or.inl ⟨b0, hb0, hh.trans he⟩
        · right
          rw [hh, hm]
          exact he

theorem bossSpawnStep_bossesInv {S : List Boss} {s : GameState}
    (h : BossesInv S s) : BossesInv S (bossSpawnStep s) := by
  unfold bossSpawnStep
  dsimp only
  split_ifs with hs
  · refine ⟨h.1, fun b' hb' => ?_⟩
    rcases List.mem_append.mp hb' with h2 | h2
    · exact h.2 _ h2
    · rw [List.mem_singleton.mp h2]
      exact Or.inr (createBoss_health_eq_max _)
  · exact h

theorem obstaclesPhase_bossesInv {S : List Boss} {s : GameState}
    (h : BossesInv S s) : BossesInv S (obstaclesPhase s) :=
  foldl_preserve (BossesInv S) (fun _ : Obstacle => True) obstacleStep
    (fun _ _ _ hj => obstacleStep_bossesInv hj) _ _ (fun _ _ => trivial) h

theorem enemiesPhase_bossesInv {S : List Boss} {env : Env} {s : GameState}
    (h : BossesInv S s) : BossesInv S (enemiesPhase env s) :=
  foldl_preserve (BossesInv S) (fun _ : Enemy => True) (enemyStep env)
    (fun _ _ _ hj => enemyStep_bossesInv hj) _ _ (fun _ _ => trivial) h

theorem projectilesPhase_bossesInv {S : List Boss} {s : GameState}
    (h : BossesInv S s) : BossesInv S (projectilesPhase s) :=
  foldl_preserve (BossesInv S) (fun _ : Projectile => True) projectileStep
    (fun _ _ _ hj => projectileStep_bossesInv hj) _ _ (fun _ _ => trivial) h

theorem bossesPhase_bossesInv {S : List Boss} {env : Env} {u : GameState}
    (h : BossesInv S u) : BossesInv S (bossesPhase env u) := by
  obtain ⟨hp, hmem⟩ := h
  exact foldl_preserve (BossesInv S)
    (fun b : Boss =>
      (∃ b0 ∈ S, b.health = b0.health) ∨ b.health = b.maxHealth)
    (bossStep env) (fun _ _ hb hj => bossStep_bossesInv hb hj)
    u.bosses { u with bosses := [] } hmem
    ⟨hp, fun b' hb' => absurd hb' (List.not_mem_nil b')⟩

theorem postSpawn_bossesInv {S : List Boss} {env : Env} {t : GameState}
    (h : BossesInv S t) : BossesInv S (postSpawn env t) :=
  projectilesPhase_bossesInv (bossesPhase_bossesInv
    (enemiesPhase_bossesInv (obstaclesPhase_bossesInv
      (bossSpawnStep_bossesInv h))))

theorem tick_bossesInv (env : Env) (s : GameState)
    (hv : s.pencil.velocityY ≤ -0.6) : BossesInv s.bosses (tick env s) := by
  have hpre : BossesInv s.bosses (preTick env s) := by
    constructor
    · show (invulnStep (pencilPhysics env.up s.pencil)).velocityY ≤ 0
      rw [invulnStep_velocityY]
      exact pencilPhysics_vel_nonpos hv env.up
    · intro b' hb'
      exact Or.inl ⟨b', hb', rfl⟩
  have hsp1 : BossesInv s.bosses ((spawnStep env (preTick env s)).1) := by
    constructor
    · rw [spawnStep_fst_pencil]
      exact hpre.1
    · rw [spawnStep_fst_bosses]
      exact hpre.2
  unfold tick
  dsimp only
  by_cases hsp : (spawnStep env (preTick env s)).2 = true
  · rw [if_pos hsp]
    exact hsp1
  · rw [if_neg hsp]
    exact postSpawn_bossesInv hsp1

/-- Claim C3, confirmed.  A runner-boss collision while the runner is
descending (velocityY > 0) and not invulnerable is a stomp: the boss
loses exactly the fixed 10 damage and the runner's velocity is set to the
-8 upward bounce; when the remaining health is ≤ 0 the boss is removed,
the phase becomes levelComplete and the 5000 defeat bonus is added,
otherwise the damaged boss is kept; with no descending contact the boss
health is untouched (and boss contact never costs a life).  A teacher
boss starts at health 50 and 10·n ≥ 50 first at n = 5: exactly 5 valid
stomps defeat it. -/
theorem claim_C3 (env : Env) (s : GameState) (b : Boss) :
    (checkCollision s.pencil.rect (bossAdvanced env s b).rect →
     0 < s.pencil.velocityY → s.pencil.invulnerable = 0 →
       (bossStep env s b).pencil.velocityY = -8 ∧
       (b.health ≤ 10 →
         (bossStep env s b).bosses = s.bosses ∧
         (bossStep env s b).phase = Phase.levelComplete ∧
         (bossStep env s b).score = s.score + 5000 ∧
         (bossStep env s b).bossDefeated = s.bossDefeated + 1) ∧
       (10 < b.health →
        ¬ ((bossAdvanced env s b).x + (bossAdvanced env s b).width <
             s.camera - 100) →
         ∃ b', (bossStep env s b).bosses = s.bosses ++ [b'] ∧
               b'.health = b.health - 10)) ∧
    (s.pencil.velocityY ≤ 0 →
       (bossStep env s b).lives = s.lives ∧
       ((bossStep env s b).bosses = s.bosses ∨
        ∃ b', (bossStep env s b).bosses = s.bosses ++ [b'] ∧
          b'.health = b.health)) ∧
    ((createBoss "teacher").health = 50 ∧
     ∀ n : ℕ, (createBoss "teacher").health - 10 * (n : ℚ) ≤ 0 ↔ 5 ≤ n) := by
  refine ⟨fun hcol hdesc hinv => ?_, fun hv => ?_, ?_⟩
  · unfold bossStep finishBoss
    dsimp only
    rw [if_pos ⟨hcol, hdesc, hinv⟩]
    refine ⟨?_, ?_, ?_⟩
    · split_ifs <;> rfl
    · intro hh
      rw [if_pos (show (bossAdvanced env s b).health - 10 ≤ 0 by
        rw [bossAdvanced_health]; linarith)]
      split_ifs <;> exact ⟨rfl, rfl, rfl, rfl⟩
    · intro hh hno
      rw [if_neg (show ¬ ((bossAdvanced env s b).health - 10 ≤ 0) by
        rw [bossAdvanced_health]; linarith)]
      refine ⟨{ bossAdvanced env s b with
        health := (bossAdvanced env s b).health - 10 }, ?_, ?_⟩
      · split_ifs <;> rfl
      · show (bossAdvanced env s b).health - 10 = b.health - 10
        rw [bossAdvanced_health]
  · refine ⟨(bossStep_fields env s b).1, ?_⟩
    rcases (bossStep_noStomp env s b hv).2 with h1 | ⟨b', h1, hh, _⟩
    · exact Or.inl h1
    · exact Or.inr ⟨b', h1, hh⟩
  · have ht : (createBoss "teacher").health = 50 := by
      with_unfolding_all decide
    refine ⟨ht, fun n => ?_⟩
    rw [ht]
    constructor
    · intro hle
      have h5 : (5 : ℚ) ≤ (n : ℚ) := by linarith
      exact_mod_cast h5
    · intro h5
      have : (5 : ℚ) ≤ (n : ℚ) := by exact_mod_cast h5
      linarith

set_option maxRecDepth 20000 in
/-- Witness for claim C3: the fatal fifth stomp on a teacher boss at
health 10. -/
theorem claim_C3_witness :
    (checkCollision sStomp.pencil.rect
       (bossAdvanced envZero sStomp bStomp).rect ∧
     0 < sStomp.pencil.velocityY ∧ sStomp.pencil.invulnerable = 0 ∧
     bStomp.health ≤ 10) ∧
    ((bossStep envZero sStomp bStomp).pencil.velocityY = -8 ∧
     (bossStep envZero sStomp bStomp).bosses = sStomp.bosses ∧
     (bossStep envZero sStomp bStomp).phase = Phase.levelComplete ∧
     (bossStep envZero sStomp bStomp).score = sStomp.score + 5000 ∧
     (bossStep envZero sStomp bStomp).bossDefeated =
       sStomp.bossDefeated + 1) := by
  have h := (claim_C3 envZero sStomp bStomp).1 (by with_unfolding_all decide)
    (by with_unfolding_all decide) (by with_unfolding_all decide)
  have hd := h.2.1 (by with_unfolding_all decide)
  exact ⟨⟨by with_unfolding_all decide, by with_unfolding_all decide,
    by with_unfolding_all decide, by with_unfolding_all decide⟩,
    h.1, hd.1, hd.2.1, hd.2.2.1, hd.2.2.2⟩

/-- Claim C8, amended.  The source runs boss shooting before the stomp
check inside the same boss update, so a boss defeated this tick has
already fired its projectile this tick when its cooldown had elapsed; and
the normal-level completion check runs immediately after spawning and
before any collision resolution, short-circuiting the rest of the tick
(obstacles are not advanced and the per-tick score increment is skipped).
The claimed order physics → spawning → collisions → progression therefore
fails in both respects the claim draws from it. -/
theorem claim_C8 (env : Env) (s : GameState) (b : Boss) :
    (env.now - b.lastShot > 1000 →
     checkCollision s.pencil.rect (bossAdvanced env s b).rect →
     0 < s.pencil.velocityY → s.pencil.invulnerable = 0 → b.health ≤ 10 →
       (bossStep env s b).phase = Phase.levelComplete ∧
       (bossStep env s b).bosses = s.bosses ∧
       (bossStep env s b).projectiles = s.projectiles ++
         [createProjectile env.sqrtFn (b.x - s.worldSpeed * 0.5)
           (b.y + b.height / 2) s.pencil.x s.pencil.y b.pattern]) ∧
    ((getLevel s.level).type = "normal" →
     s.levelDistance + s.worldSpeed > 2000 →
       (tick env s).phase = Phase.levelComplete ∧
       (tick env s).score = s.score ∧ (tick env s).lives = s.lives ∧
       ∃ tail, (tick env s).obstacles = s.obstacles ++ tail) := by
  constructor
  · intro hcool hcol hdesc hinv hh
    unfold bossStep
    dsimp only
    rw [if_pos hcool, if_pos ⟨hcol, hdesc, hinv⟩,
        if_pos (show (bossAdvanced env s b).health - 10 ≤ 0 by
          rw [bossAdvanced_health]; linarith)]
    exact ⟨rfl, rfl, rfl⟩
  · intro hn hgt
    have hc := spawnStep_complete env (preTick env s)
      (by exact hn) (by exact hgt)
    unfold tick
    dsimp only
    rw [if_pos hc.1]
    exact ⟨hc.2.1, spawnStep_fst_score _ _, spawnStep_fst_lives _ _, hc.2.2⟩

set_option maxRecDepth 20000 in
/-- Witness for claim C8: the shot-ready fatal stomp, and the completion
tick of an almost-finished normal level. -/
theorem claim_C8_witness :
    (envFire.now - bStomp.lastShot > 1000 ∧
     checkCollision sStomp.pencil.rect
       (bossAdvanced envFire sStomp bStomp).rect ∧
     0 < sStomp.pencil.velocityY ∧ sStomp.pencil.invulnerable = 0 ∧
     bStomp.health ≤ 10 ∧
     (getLevel sAlmost.level).type = "normal" ∧
     sAlmost.levelDistance + sAlmost.worldSpeed > 2000) ∧
    ((bossStep envFire sStomp bStomp).phase = Phase.levelComplete ∧
     (bossStep envFire sStomp bStomp).bosses = sStomp.bosses ∧
     (bossStep envFire sStomp bStomp).projectiles = sStomp.projectiles ++
       [createProjectile envFire.sqrtFn (bStomp.x - sStomp.worldSpeed * 0.5)
         (bStomp.y + bStomp.height / 2) sStomp.pencil.x sStomp.pencil.y
         bStomp.pattern]) ∧
    ((tick envZero sAlmost).phase = Phase.levelComplete ∧
     (tick envZero sAlmost).score = sAlmost.score ∧
     (tick envZero sAlmost).lives = sAlmost.lives ∧
     ∃ tail, (tick envZero sAlmost).obstacles = sAlmost.obstacles ++ tail) :=
  ⟨by with_unfolding_all decide,
   (claim_C8 envFire sStomp bStomp).1 (by with_unfolding_all decide)
     (by with_unfolding_all decide) (by with_unfolding_all decide)
     (by with_unfolding_all decide) (by with_unfolding_all decide),
   (claim_C8 envZero sAlmost bStomp).2 (by with_unfolding_all decide)
     (by with_unfolding_all decide)⟩

set_option maxRecDepth 20000 in
/-- Counterexample to claim C8 as stated: in one tick the boss is
defeated (phase levelComplete, boss list emptied, bossDefeated 1) and the
projectile it fired that same tick is live in the world afterwards. -/
theorem claim_C8_cex :
    (tick envFire sFire).phase = Phase.levelComplete ∧
    (tick envFire sFire).bosses = [] ∧
    (tick envFire sFire).bossDefeated = 1 ∧
    (tick envFire sFire).projectiles.length = 1 := by
  with_unfolding_all decide

/-- Claim C10, confirmed.  Per boss and per tick the stomp check runs
once, so a kept boss loses either nothing or exactly 10 health; a stomp
leaves the runner at velocityY = -8, and from any velocity ≤ -0.6 one
physics step (gravity +0.6, with jump impulse and clamps) cannot produce
a positive velocity, so on the following tick no boss loses health — a
stomp at tick t excludes a stomp at tick t+1 even under continued
contact. -/
theorem claim_C10 (env : Env) (s : GameState) (b : Boss)
    (hv : s.pencil.velocityY ≤ -0.6) :
    (∀ b' ∈ (bossStep env s b).bosses,
       b' ∈ s.bosses ∨ b'.health = b.health ∨ b'.health = b.health - 10) ∧
    (pencilPhysics env.up s.pencil).velocityY ≤ 0 ∧
    ∀ b' ∈ (tick env s).bosses,
      (∃ b0 ∈ s.bosses, b'.health = b0.health) ∨
      b'.health = b'.maxHealth :=
  ⟨bossStep_health_dichotomy env s b,
   pencilPhysics_vel_nonpos hv env.up,
   (tick_bossesInv env s hv).2⟩

set_option maxRecDepth 20000 in
/-- Witness for claim C10 at the just-bounced runner over a teacher
boss. -/
theorem claim_C10_witness :
    sBounce.pencil.velocityY ≤ -0.6 ∧
    ((∀ b' ∈ (bossStep envZero sBounce (createBoss "teacher")).bosses,
        b' ∈ sBounce.bosses ∨ b'.health = (createBoss "teacher").health ∨
        b'.health = (createBoss "teacher").health - 10) ∧
     (pencilPhysics envZero.up sBounce.pencil).velocityY ≤ 0 ∧
     ∀ b' ∈ (tick envZero sBounce).bosses,
       (∃ b0 ∈ sBounce.bosses, b'.health = b0.health) ∨
       b'.health = b'.maxHealth) :=
  ⟨by with_unfolding_all decide,
   claim_C10 envZero sBounce (createBoss "teacher")
     (by with_unfolding_all decide)⟩

end PencilGame
